import Mathlib

/-!
Verification development for the ElmechBackend authentication routes
(src/routes/AuthRoutes.js): the token codec, the `protect` authorization
gate middleware, and the `POST /login` handler, shallowly embedded in Lean.

Machine-level details (JWT string serialization, bcrypt internals, the
Express framework) are abstracted: the codec works on a structured `Token`
record carrying the claims, the secret used to sign, and a malformed flag;
external collaborators (user store, password comparison, downstream
handler) are parameters of the embedded functions.
-/

namespace Elmech

/-- Claims carried inside a token: the subject's user id, role, issuance
time and expiry time.  The field is called `userId` to match the payload
field used by the gate code (`decoded.userId`); the spec calls it
subjectId. -/
structure Claims where
  userId : String
  role : String
  issuedAt : Nat
  expiresAt : Nat
deriving DecidableEq, Repr

/-- Token verification failure causes, per the spec's codec contract. -/
inductive VerifyError
  | TokenMalformed
  | SignatureInvalid
  | TokenExpired
deriving DecidableEq, Repr

/-- Abstract signed token: the claims it encodes, the secret it was signed
with, and whether the serialized string is malformed (unparseable). -/
structure Token where
  claims : Claims
  signedWith : String
  malformed : Bool
deriving DecidableEq, Repr

/-- Process-wide codec configuration: the two secrets and the two TTLs. -/
structure CodecConfig where
  accessSecret : String
  refreshSecret : String
  accessTTL : Nat
  refreshTTL : Nat
deriving DecidableEq, Repr

/-- Modelled from the spec: `issueAccessToken(subjectId, role) -> Token`
builds Claims with issuedAt = now, expiresAt = now + accessTTL, serializes
and signs with the access secret.  The implementation lives in
`utils/jwt.js`, which is not part of the sources; the name follows the
require call in AuthRoutes.js. -/
def generateAccessToken (cfg : CodecConfig) (userId role : String) (now : Nat) : Token :=
  { claims := { userId := userId, role := role, issuedAt := now,
                expiresAt := now + cfg.accessTTL },
    signedWith := cfg.accessSecret,
    malformed := false }

/-- Modelled from the spec: `issueRefreshToken(subjectId) -> Token` has the
same shape but role omitted, expiresAt = now + refreshTTL, and is signed
with a different secret than access tokens.  The implementation lives in
`utils/jwt.js`, which is not part of the sources. -/
def generateRefreshToken (cfg : CodecConfig) (userId : String) (now : Nat) : Token :=
  { claims := { userId := userId, role := "", issuedAt := now,
                expiresAt := now + cfg.refreshTTL },
    signedWith := cfg.refreshSecret,
    malformed := false }

/-- Modelled from the spec: `verify(token, secret) -> Claims` fails with
TokenMalformed if the string cannot be parsed, SignatureInvalid if the
signature does not match under the given secret, TokenExpired if
now > expiresAt; on success returns the Claims unchanged.  This is the
behaviour of `jwt.verify` from the external jsonwebtoken library. -/
def verify (t : Token) (secret : String) (now : Nat) : Except VerifyError Claims :=
  if t.malformed then .error .TokenMalformed
  else if t.signedWith ≠ secret then .error .SignatureInvalid
  else if t.claims.expiresAt < now then .error .TokenExpired
  else .ok t.claims

/-- Minimal view of a stored identity used by the gate: `User.findById`
yields a record whose `userRole` drives the role check. -/
structure GateUser where
  id : String
  userRole : String
deriving DecidableEq, Repr

/-- Result of the user-store lookup `User.findById`: a found user, a null
result (not found), or a thrown store error. -/
inductive StoreResult
  | found (u : GateUser)
  | notFound
  | storeError
deriving DecidableEq, Repr

/-- Split a character list on a separator character, accumulating the
current field; the JavaScript semantics of `String.prototype.split` with a
single-character separator (so the empty string yields one empty field,
and a trailing separator yields a trailing empty field). -/
def splitCharAux (sep : Char) : List Char → List Char → List String
  | [], acc => [String.mk acc.reverse]
  | c :: cs, acc =>
    if c = sep then String.mk acc.reverse :: splitCharAux sep cs []
    else splitCharAux sep cs (c :: acc)

/-- JavaScript `s.split(sep)` for a single-character separator. -/
def jsSplit (s : String) (sep : Char) : List String :=
  splitCharAux sep s.data []

/-- Bearer-token extraction, from
`req.headers.authorization?.split(' ')[1]` followed by the `if (!token)`
falsiness check: no header, no second space-separated part, or an empty
second part all count as no token. -/
def extractToken (authHeader : Option String) : Option String :=
  match authHeader with
  | none => none
  | some h =>
    match (jsSplit h ' ').get? 1 with
    | none => none
    | some t => if t = "" then none else some t

/-- Observable outcome of one run of the gate middleware: the response
status and body message if a response was sent, the value of `req.user`
after the run, whether `next()` was invoked, and whether token
verification and the store lookup were performed. -/
structure GateOutcome where
  status : Option Nat
  message : Option String
  reqUser : Option GateUser
  nextInvoked : Bool
  verifyAttempted : Bool
  storeQueried : Bool
deriving DecidableEq, Repr

/-- The `protect(allowedRoles)` middleware from AuthRoutes.js, embedded
step for step: extract the bearer token (401 "Authorization token
required" when absent); `jwt.verify` against the access secret inside a
try block; `User.findById(decoded.userId)` (404 "User not found" on null);
attach `req.user = user`; role check (403 when `allowedRoles` is non-empty
and does not contain `user.userRole`); `next()`.  Any exception inside the
try block — verification failure, a store error, or `next()` throwing
synchronously — is caught and answered with 401 "Invalid or expired
token".  `decode` maps the extracted token string to its structured form;
`nextThrows` models whether the downstream handler throws. -/
def protect (allowedRoles : List String) (accessSecret : String)
    (decode : String → Token) (findById : String → StoreResult)
    (nextThrows : Bool) (now : Nat) (authHeader : Option String) : GateOutcome :=
  match extractToken authHeader with
  | none =>
      { status := some 401, message := some "Authorization token required",
        reqUser := none, nextInvoked := false,
        verifyAttempted := false, storeQueried := false }
  | some tokenStr =>
      match verify (decode tokenStr) accessSecret now with
      | .error _ =>
          { status := some 401, message := some "Invalid or expired token",
            reqUser := none, nextInvoked := false,
            verifyAttempted := true, storeQueried := false }
      | .ok decoded =>
          match findById decoded.userId with
          | .storeError =>
              { status := some 401, message := some "Invalid or expired token",
                reqUser := none, nextInvoked := false,
                verifyAttempted := true, storeQueried := true }
          | .notFound =>
              { status := some 404, message := some "User not found",
                reqUser := none, nextInvoked := false,
                verifyAttempted := true, storeQueried := true }
          | .found user =>
              if allowedRoles.length ≠ 0 ∧ user.userRole ∉ allowedRoles then
                { status := some 403,
                  message := some "Access forbidden: Insufficient privileges",
                  reqUser := some user, nextInvoked := false,
                  verifyAttempted := true, storeQueried := true }
              else if nextThrows then
                { status := some 401, message := some "Invalid or expired token",
                  reqUser := some user, nextInvoked := true,
                  verifyAttempted := true, storeQueried := true }
              else
                { status := none, message := none,
                  reqUser := some user, nextInvoked := true,
                  verifyAttempted := true, storeQueried := true }

/-- Stored user record as used by the login handler: email, bcrypt
password hash, role and database id (other profile fields do not affect
the control flow being verified). -/
structure DbUser where
  id : String
  email : String
  password : String
  userRole : String
deriving DecidableEq, Repr

/-- Observable outcome of the login handler: response status, body
message, and the access token included on success. -/
structure LoginOutcome where
  status : Nat
  message : String
  accessToken : Option Token
deriving DecidableEq, Repr

/-- The `POST /login` handler from AuthRoutes.js: validate that email and
password are present (JS falsiness — an absent field and the empty string
behave identically, so both are modelled as `""`); `User.findOne` by
email, 400 "Invalid credentials." on null; `bcrypt.compare` against the
stored hash, 400 "Invalid credentials." on mismatch; on success issue the
tokens and answer 200 "Login successful." with the access token.
`findOne` and `bcryptCompare` are the external store and hash
primitives. -/
def login (cfg : CodecConfig) (findOne : String → Option DbUser)
    (bcryptCompare : String → String → Bool) (now : Nat)
    (email password : String) : LoginOutcome :=
  if email = "" then { status := 400, message := "Email is required.", accessToken := none }
  else if password = "" then { status := 400, message := "Password is required.", accessToken := none }
  else
    match findOne email with
    | none => { status := 400, message := "Invalid credentials.", accessToken := none }
    | some user =>
      if ¬ bcryptCompare password user.password then
        { status := 400, message := "Invalid credentials.", accessToken := none }
      else
        { status := 200, message := "Login successful.",
          accessToken := some (generateAccessToken cfg user.id user.userRole now) }

/-- Disjunction of the three ways an exception can arise inside the gate's
try block after a token has been extracted: `jwt.verify` throwing, the
store lookup throwing, or `next()` throwing synchronously after the role
check passed. -/
def throwsAfterExtract (accessSecret : String) (decode : String → Token)
    (findById : String → StoreResult) (allowedRoles : List String)
    (nextThrows : Bool) (now : Nat) (tokenStr : String) : Prop :=
  (∃ e, verify (decode tokenStr) accessSecret now = .error e) ∨
  (∃ c, verify (decode tokenStr) accessSecret now = .ok c ∧
    findById c.userId = .storeError) ∨
  (∃ c u, verify (decode tokenStr) accessSecret now = .ok c ∧
    findById c.userId = .found u ∧
    ¬ (allowedRoles.length ≠ 0 ∧ u.userRole ∉ allowedRoles) ∧
    nextThrows = true)

/-- Concrete codec configuration for witnesses and counterexamples. -/
def cfgX : CodecConfig :=
  { accessSecret := "as", refreshSecret := "rs", accessTTL := 900, refreshTTL := 604800 }

/-- Concrete stored identity with role "user". -/
def userU : GateUser := { id := "u1", userRole := "user" }

/-- Concrete valid access token for `userU`, issued at time 0. -/
def tokU : Token := generateAccessToken cfgX "u1" "user" 0

/-- Concrete decoder mapping every token string to `tokU`. -/
def decodeU : String → Token := fun _ => tokU

/-- Concrete decoder mapping every token string to a token signed with a
wrong secret. -/
def decodeBad : String → Token :=
  fun _ => { claims := tokU.claims, signedWith := "wrong", malformed := false }

/-- Concrete store in which every lookup finds `userU`. -/
def storeU : String → StoreResult := fun _ => .found userU

/-- Concrete store in which every lookup returns null. -/
def storeN : String → StoreResult := fun _ => .notFound

/-- Concrete store in which every lookup throws. -/
def storeE : String → StoreResult := fun _ => .storeError

/-- Claim C1 counterexample: at a concrete run that fails the role check
with 403, `req.user` has been attached to the request context — the
resolved identity IS attached even though the Admit step is never
reached, refuting the claim that attachment happens only at Admit. -/
theorem C1_counterexample :
    (protect ["admin"] "as" decodeU storeU false 0 (some "Bearer t")).status = some 403 ∧
    (protect ["admin"] "as" decodeU storeU false 0 (some "Bearer t")).reqUser ≠ none := by
  decide

/-- Claim C1 (amended): when verification and resolution succeed but the
allowed-role set is non-empty and does not contain the identity's role,
the downstream operation is not invoked, yet the resolved identity has
already been attached to the request context (attachment happens right
after the store lookup, before the role check). -/
theorem C1_attach_before_authorize
    (allowedRoles : List String) (accessSecret : String)
    (decode : String → Token) (findById : String → StoreResult)
    (nextThrows : Bool) (now : Nat) (authHeader : Option String)
    (s : String) (c : Claims) (u : GateUser)
    (hx : extractToken authHeader = some s)
    (hv : verify (decode s) accessSecret now = .ok c)
    (hf : findById c.userId = .found u)
    (hne : allowedRoles.length ≠ 0)
    (hrole : u.userRole ∉ allowedRoles) :
    (protect allowedRoles accessSecret decode findById nextThrows now authHeader).nextInvoked = false ∧
    (protect allowedRoles accessSecret decode findById nextThrows now authHeader).reqUser = some u := by
  simp [protect, hx, hv, hf, hne, hrole]

/-- Witness for C1_attach_before_authorize at a concrete input. -/
theorem C1_attach_before_authorize_witness :
    (protect ["admin"] "as" decodeU storeU false 0 (some "Bearer t")).nextInvoked = false ∧
    (protect ["admin"] "as" decodeU storeU false 0 (some "Bearer t")).reqUser = some userU :=
  C1_attach_before_authorize ["admin"] "as" decodeU storeU false 0 (some "Bearer t")
    "t" tokU.claims userU (by rfl) (by rfl) (by rfl) (by decide) (by decide)

/-- Claim C2 counterexample: at a concrete role-mismatch run the status is
403 but the body message is "Access forbidden: Insufficient privileges"
(capital I), not the claimed exact string
"Access forbidden: insufficient privileges". -/
theorem C2_counterexample :
    (protect ["admin"] "as" decodeU storeU false 0 (some "Bearer t")).status = some 403 ∧
    (protect ["admin"] "as" decodeU storeU false 0 (some "Bearer t")).message ≠
      some "Access forbidden: insufficient privileges" := by
  decide

/-- Claim C2 (amended): for every protected request carrying a valid,
unexpired access token whose subject exists in the store, if the gate's
allowed-role set is non-empty and the identity's role is not a member,
the gate responds 403 with the exact body message
"Access forbidden: Insufficient privileges" (capital I), and the
downstream operation is not invoked. -/
theorem C2_forbidden_status_and_message
    (allowedRoles : List String) (accessSecret : String)
    (decode : String → Token) (findById : String → StoreResult)
    (nextThrows : Bool) (now : Nat) (authHeader : Option String)
    (s : String) (c : Claims) (u : GateUser)
    (hx : extractToken authHeader = some s)
    (hv : verify (decode s) accessSecret now = .ok c)
    (hf : findById c.userId = .found u)
    (hne : allowedRoles.length ≠ 0)
    (hrole : u.userRole ∉ allowedRoles) :
    (protect allowedRoles accessSecret decode findById nextThrows now authHeader).status = some 403 ∧
    (protect allowedRoles accessSecret decode findById nextThrows now authHeader).message =
      some "Access forbidden: Insufficient privileges" ∧
    (protect allowedRoles accessSecret decode findById nextThrows now authHeader).nextInvoked = false := by
  simp [protect, hx, hv, hf, hne, hrole]

/-- Witness for C2_forbidden_status_and_message at a concrete input. -/
theorem C2_forbidden_status_and_message_witness :
    (protect ["admin"] "as" decodeU storeU false 0 (some "Bearer t")).status = some 403 ∧
    (protect ["admin"] "as" decodeU storeU false 0 (some "Bearer t")).message =
      some "Access forbidden: Insufficient privileges" ∧
    (protect ["admin"] "as" decodeU storeU false 0 (some "Bearer t")).nextInvoked = false :=
  C2_forbidden_status_and_message ["admin"] "as" decodeU storeU false 0 (some "Bearer t")
    "t" tokU.claims userU (by rfl) (by rfl) (by rfl) (by decide) (by decide)

/-- Claim C3: a valid, unexpired token whose subject is not found in the
user store yields 404 with message "User not found" — distinct from the
401 "Invalid or expired token" of verification failures — and the
downstream operation is not invoked. -/
theorem C3_user_not_found
    (allowedRoles : List String) (accessSecret : String)
    (decode : String → Token) (findById : String → StoreResult)
    (nextThrows : Bool) (now : Nat) (authHeader : Option String)
    (s : String) (c : Claims)
    (hx : extractToken authHeader = some s)
    (hv : verify (decode s) accessSecret now = .ok c)
    (hf : findById c.userId = .notFound) :
    (protect allowedRoles accessSecret decode findById nextThrows now authHeader).status = some 404 ∧
    (protect allowedRoles accessSecret decode findById nextThrows now authHeader).message =
      some "User not found" ∧
    (protect allowedRoles accessSecret decode findById nextThrows now authHeader).nextInvoked = false := by
  simp [protect, hx, hv, hf]

/-- Witness for C3_user_not_found at a concrete input. -/
theorem C3_user_not_found_witness :
    (protect [] "as" decodeU storeN false 0 (some "Bearer t")).status = some 404 ∧
    (protect [] "as" decodeU storeN false 0 (some "Bearer t")).message = some "User not found" ∧
    (protect [] "as" decodeU storeN false 0 (some "Bearer t")).nextInvoked = false :=
  C3_user_not_found [] "as" decodeU storeN false 0 (some "Bearer t")
    "t" tokU.claims (by rfl) (by rfl) (by rfl)

/-- Claim C4: whenever the extracted token fails codec verification — for
any of the three causes (malformed, bad signature, expired) — the gate
responds 401 with message "Invalid or expired token" and the downstream
operation is not invoked; the response does not depend on which cause
occurred. -/
theorem C4_verify_failure_collapsed
    (allowedRoles : List String) (accessSecret : String)
    (decode : String → Token) (findById : String → StoreResult)
    (nextThrows : Bool) (now : Nat) (authHeader : Option String)
    (s : String) (e : VerifyError)
    (hx : extractToken authHeader = some s)
    (hv : verify (decode s) accessSecret now = .error e) :
    (protect allowedRoles accessSecret decode findById nextThrows now authHeader).status = some 401 ∧
    (protect allowedRoles accessSecret decode findById nextThrows now authHeader).message =
      some "Invalid or expired token" ∧
    (protect allowedRoles accessSecret decode findById nextThrows now authHeader).nextInvoked = false := by
  simp [protect, hx, hv]

/-- Witness for C4_verify_failure_collapsed at a concrete input. -/
theorem C4_verify_failure_collapsed_witness :
    (protect [] "as" decodeBad storeU false 0 (some "Bearer t")).status = some 401 ∧
    (protect [] "as" decodeBad storeU false 0 (some "Bearer t")).message =
      some "Invalid or expired token" ∧
    (protect [] "as" decodeBad storeU false 0 (some "Bearer t")).nextInvoked = false :=
  C4_verify_failure_collapsed [] "as" decodeBad storeU false 0 (some "Bearer t")
    "t" .SignatureInvalid (by rfl) (by rfl)

/-- Claim C5: when no bearer token can be extracted from the authorization
header, the gate responds 401 with message "Authorization token required"
and halts: no token verification, no user-store lookup and no downstream
invocation happen for that request. -/
theorem C5_missing_header
    (allowedRoles : List String) (accessSecret : String)
    (decode : String → Token) (findById : String → StoreResult)
    (nextThrows : Bool) (now : Nat) (authHeader : Option String)
    (hx : extractToken authHeader = none) :
    (protect allowedRoles accessSecret decode findById nextThrows now authHeader).status = some 401 ∧
    (protect allowedRoles accessSecret decode findById nextThrows now authHeader).message =
      some "Authorization token required" ∧
    (protect allowedRoles accessSecret decode findById nextThrows now authHeader).verifyAttempted = false ∧
    (protect allowedRoles accessSecret decode findById nextThrows now authHeader).storeQueried = false ∧
    (protect allowedRoles accessSecret decode findById nextThrows now authHeader).nextInvoked = false := by
  simp [protect, hx]

/-- Witness for C5_missing_header with no authorization header at all. -/
theorem C5_missing_header_witness :
    (protect [] "as" decodeU storeU false 0 none).status = some 401 ∧
    (protect [] "as" decodeU storeU false 0 none).message =
      some "Authorization token required" ∧
    (protect [] "as" decodeU storeU false 0 none).verifyAttempted = false ∧
    (protect [] "as" decodeU storeU false 0 none).storeQueried = false ∧
    (protect [] "as" decodeU storeU false 0 none).nextInvoked = false :=
  C5_missing_header [] "as" decodeU storeU false 0 none (by decide)

/-- Claim C6: with an empty allowed-role set, every request whose token
verifies and whose subject is found in the store is admitted — the
downstream operation is invoked with the resolved identity attached —
regardless of the identity's role. -/
theorem C6_empty_roles_admit
    (accessSecret : String)
    (decode : String → Token) (findById : String → StoreResult)
    (nextThrows : Bool) (now : Nat) (authHeader : Option String)
    (s : String) (c : Claims) (u : GateUser)
    (hx : extractToken authHeader = some s)
    (hv : verify (decode s) accessSecret now = .ok c)
    (hf : findById c.userId = .found u) :
    (protect [] accessSecret decode findById nextThrows now authHeader).nextInvoked = true ∧
    (protect [] accessSecret decode findById nextThrows now authHeader).reqUser = some u := by
  cases nextThrows <;> simp [protect, hx, hv, hf]

/-- Witness for C6_empty_roles_admit at a concrete input. -/
theorem C6_empty_roles_admit_witness :
    (protect [] "as" decodeU storeU false 0 (some "Bearer t")).nextInvoked = true ∧
    (protect [] "as" decodeU storeU false 0 (some "Bearer t")).reqUser = some userU :=
  C6_empty_roles_admit "as" decodeU storeU false 0 (some "Bearer t")
    "t" tokU.claims userU (by rfl) (by rfl) (by rfl)

/-- Claim C7: when the refresh secret differs from the access secret,
every refresh token fails verification against the access secret with a
signature error, every access token symmetrically fails against the
refresh secret, and a request presenting a refresh token is never
admitted by the gate (the downstream operation is never invoked). -/
theorem C7_secret_separation (cfg : CodecConfig)
    (hsec : cfg.refreshSecret ≠ cfg.accessSecret) :
    (∀ uid iss n, verify (generateRefreshToken cfg uid iss) cfg.accessSecret n =
      .error .SignatureInvalid) ∧
    (∀ uid role iss n, verify (generateAccessToken cfg uid role iss) cfg.refreshSecret n =
      .error .SignatureInvalid) ∧
    (∀ allowedRoles findById nextThrows now authHeader uid iss,
      (protect allowedRoles cfg.accessSecret (fun _ => generateRefreshToken cfg uid iss)
        findById nextThrows now authHeader).nextInvoked = false) := by
  refine ⟨?_, ?_, ?_⟩
  · intro uid iss n
    simp [verify, generateRefreshToken, hsec]
  · intro uid role iss n
    simp [verify, generateAccessToken, Ne.symm hsec]
  · intro allowedRoles findById nextThrows now authHeader uid iss
    simp only [protect]
    cases hE : extractToken authHeader with
    | none => rfl
    | some s => simp [verify, generateRefreshToken, hsec]

/-- Witness for C7_secret_separation with concrete distinct secrets. -/
theorem C7_secret_separation_witness :
    cfgX.refreshSecret ≠ cfgX.accessSecret ∧
    verify (generateRefreshToken cfgX "u1" 0) cfgX.accessSecret 0 =
      .error .SignatureInvalid :=
  ⟨by decide, (C7_secret_separation cfgX (by decide)).1 "u1" 0 0⟩

/-- Claim C8: verifying, with the access secret and before expiry, the
token produced by issueAccessToken(subjectId, role) succeeds and returns
Claims with exactly that subjectId and role, issuedAt equal to the
issuance time and expiresAt = issuedAt + accessTTL. -/
theorem C8_issue_verify_roundtrip (cfg : CodecConfig) (uid role : String) (iss n : Nat)
    (hexp : n ≤ iss + cfg.accessTTL) :
    verify (generateAccessToken cfg uid role iss) cfg.accessSecret n =
      .ok { userId := uid, role := role, issuedAt := iss,
            expiresAt := iss + cfg.accessTTL } := by
  simp [verify, generateAccessToken, Nat.not_lt.mpr hexp]

/-- Witness for C8_issue_verify_roundtrip at a concrete input. -/
theorem C8_issue_verify_roundtrip_witness :
    (0 : Nat) ≤ 0 + cfgX.accessTTL ∧
    verify (generateAccessToken cfgX "u1" "user" 0) cfgX.accessSecret 0 =
      .ok { userId := "u1", role := "user", issuedAt := 0,
            expiresAt := 0 + cfgX.accessTTL } :=
  ⟨Nat.zero_le _, C8_issue_verify_roundtrip cfgX "u1" "user" 0 0 (Nat.zero_le _)⟩

/-- Claim C9: after a token has been extracted, every exception inside the
gate's try block — a verification failure, a user-store error, or the
downstream handler throwing synchronously via next() — is answered by the
single catch handler with 401 "Invalid or expired token"; in particular a
store failure is externally indistinguishable from an invalid token. -/
theorem C9_try_block_collapses_exceptions
    (allowedRoles : List String) (accessSecret : String)
    (decode : String → Token) (findById : String → StoreResult)
    (nextThrows : Bool) (now : Nat) (authHeader : Option String) (s : String)
    (hx : extractToken authHeader = some s)
    (hthrow : throwsAfterExtract accessSecret decode findById allowedRoles nextThrows now s) :
    (protect allowedRoles accessSecret decode findById nextThrows now authHeader).status = some 401 ∧
    (protect allowedRoles accessSecret decode findById nextThrows now authHeader).message =
      some "Invalid or expired token" := by
  rcases hthrow with ⟨e, hv⟩ | ⟨c, hv, hf⟩ | ⟨c, u, hv, hf, hrole, hnext⟩
  · simp [protect, hx, hv]
  · simp [protect, hx, hv, hf]
  · subst hnext
    simp only [ne_eq, List.length_eq_zero] at hrole
    simp [protect, hx, hv, hf, hrole]

/-- Witness for C9_try_block_collapses_exceptions: a throwing store. -/
theorem C9_try_block_collapses_exceptions_witness :
    (protect [] "as" decodeU storeE false 0 (some "Bearer t")).status = some 401 ∧
    (protect [] "as" decodeU storeE false 0 (some "Bearer t")).message =
      some "Invalid or expired token" :=
  C9_try_block_collapses_exceptions [] "as" decodeU storeE false 0 (some "Bearer t") "t"
    (by rfl) (Or.inr (Or.inl ⟨tokU.claims, by rfl, by rfl⟩))

/-- Concrete stored account for the login witnesses. -/
def dbU : DbUser := { id := "u1", email := "a@b", password := "hash", userRole := "user" }

/-- Concrete login store holding exactly the account `dbU`. -/
def storeLogin : String → Option DbUser :=
  fun e => if e = "a@b" then some dbU else none

/-- Concrete password comparison that rejects every candidate. -/
def cmpFalse : String → String → Bool := fun _ _ => false

/-- Claim C10: with both email and password present, a login attempt for a
non-registered email and one with a wrong password for a registered email
produce identical external responses, namely 400 with body message
"Invalid credentials." — the endpoint does not reveal whether an email is
registered. -/
theorem C10_login_no_email_oracle
    (cfg : CodecConfig) (findOne : String → Option DbUser)
    (bcryptCompare : String → String → Bool) (now : Nat)
    (e1 p1 e2 p2 : String) (u : DbUser)
    (he1 : e1 ≠ "") (hp1 : p1 ≠ "") (he2 : e2 ≠ "") (hp2 : p2 ≠ "")
    (hmiss : findOne e1 = none)
    (hfound : findOne e2 = some u)
    (hwrong : bcryptCompare p2 u.password = false) :
    login cfg findOne bcryptCompare now e1 p1 = login cfg findOne bcryptCompare now e2 p2 ∧
    login cfg findOne bcryptCompare now e1 p1 =
      { status := 400, message := "Invalid credentials.", accessToken := none } := by
  simp [login, he1, hp1, he2, hp2, hmiss, hfound, hwrong]

/-- Witness for C10_login_no_email_oracle at concrete inputs. -/
theorem C10_login_no_email_oracle_witness :
    login cfgX storeLogin cmpFalse 0 "x@y" "pw" = login cfgX storeLogin cmpFalse 0 "a@b" "pw" ∧
    login cfgX storeLogin cmpFalse 0 "x@y" "pw" =
      { status := 400, message := "Invalid credentials.", accessToken := none } :=
  C10_login_no_email_oracle cfgX storeLogin cmpFalse 0 "x@y" "pw" "a@b" "pw" dbU
    (by decide) (by decide) (by decide) (by decide) (by rfl) (by rfl) (by rfl)

end Elmech
